import Mathlib

/-!
# FoxControl-Server: shallow embedding and verification

A shallow embedding of the device-control server (`src/server.cpp`,
`src/server.hpp`), the serial helpers (`src/serial.hpp`) and the gateway
client (`src/gateway.cpp`) of the FoxControl-Server repository, together
with theorems settling the specification claims about them.

Modelling conventions:
* The atomic fields of `DeviceState` become plain fields of a Lean
  structure; each mutation operation is a pure function
  `DeviceState → DeviceState × List Char` returning the new state and the
  exact sequence of single-byte commands pushed onto the command queue
  (the queue itself is a FIFO, so the emitted list is the enqueue order).
* `kstd::i32` speeds become `Int` (no operation here gets near the i32
  overflow range on defined-behaviour runs).
* The optional monitor UI hook (`_monitor->set_slider_speed`) is outside
  the modelled core: it changes no device state and enqueues nothing.
* The serial byte stream available to one receive-loop iteration is a
  `List Char`: `try_read` yields successive elements and fails at the end
  of the list (the read timeout with no further data).
-/

namespace FoxControl

/-- `constexpr char MESSAGE_ON = 'i';` (`server.hpp`). -/
def MESSAGE_ON : Char := 'i'

/-- `constexpr char MESSAGE_OFF = 'o';` (`server.hpp`). -/
def MESSAGE_OFF : Char := 'o'

/-- `constexpr char MESSAGE_MODE = 'm';` (`server.hpp`). -/
def MESSAGE_MODE : Char := 'm'

/-- `constexpr char MESSAGE_LOWER = 'l';` (`server.hpp`). -/
def MESSAGE_LOWER : Char := 'l'

/-- `constexpr char MESSAGE_HIGHER = 'h';` (`server.hpp`). -/
def MESSAGE_HIGHER : Char := 'h'

/-- `constexpr int32_t MAX_SPEED = 32;` (`server.hpp`). -/
def MAX_SPEED : Int := 32

/-- `constexpr int32_t MIN_SPEED = 0;` (`server.hpp`). -/
def MIN_SPEED : Int := 0

/-- Modelled from the spec: `dto.hpp` is not under `src/`, so the
`dto::Mode` enumeration is missing; the spec gives `mode: enum{DEFAULT, …}`,
an enumeration with `DEFAULT` and unspecified further members. We model it
as `Nat` with `DEFAULT = 0`; none of the embedded code inspects the value. -/
def Mode : Type := Nat

instance : DecidableEq Mode := instDecidableEqNat

instance : Repr Mode := instReprNat

instance (n : Nat) : OfNat Mode n := ⟨(n : Nat)⟩

/-- `dto::Mode::DEFAULT`, modelled as `0`. -/
def Mode.DEFAULT : Mode := (0 : Nat)

/-- `struct DeviceState` (`server.hpp`): four independently atomic fields,
value-initialised at construction (`false`, `DEFAULT`, `0`, `0`). -/
structure DeviceState where
  is_on : Bool
  mode : Mode
  target_speed : Int
  actual_speed : Int
deriving Repr, DecidableEq

/-- The default-constructed `DeviceState` of a fresh `Server`. -/
def initState : DeviceState :=
  { is_on := false, mode := Mode.DEFAULT, target_speed := 0, actual_speed := 0 }

/-- `Server::set_is_on` (`server.cpp` lines 296–316): no-op when the power
state already matches; otherwise push exactly one ON/OFF byte, set `is_on`
and reset `target_speed` to 1 (on) or 0 (off). Returns the new state and
the pushed commands in queue order. -/
def set_is_on (is_on : Bool) (st : DeviceState) : DeviceState × List Char :=
  if st.is_on = is_on then
    (st, [])
  else
    ({ st with
        is_on := is_on,
        target_speed := if is_on then 1 else 0 },
      [if is_on then MESSAGE_ON else MESSAGE_OFF])

/-- The step-command phase of `Server::set_speed` (`server.cpp` lines
267–293): compare `target_speed` with the requested speed, push one
HIGHER/LOWER byte per unit of difference, then store the new target. -/
def speed_steps (speed : Int) (st : DeviceState) : DeviceState × List Char :=
  let cmds :=
    if st.target_speed < speed then
      List.replicate (speed - st.target_speed).toNat MESSAGE_HIGHER
    else if speed < st.target_speed then
      List.replicate (st.target_speed - speed).toNat MESSAGE_LOWER
    else
      []
  ({ st with target_speed := speed }, cmds)

/-- `Server::set_speed` (`server.cpp` lines 255–294). When off and asked
for a positive speed, first `set_is_on true`; when on and asked for 0,
`set_is_on false` and return immediately (no step commands); otherwise
fall through to the step-command phase. -/
def set_speed (speed : Int) (st : DeviceState) : DeviceState × List Char :=
  if st.is_on = false ∧ 0 < speed then
    let p := set_is_on true st
    let q := speed_steps speed p.1
    (q.1, p.2 ++ q.2)
  else if st.is_on = true ∧ speed = 0 then
    set_is_on false st
  else
    speed_steps speed st

/-- `Server::set_mode` (`server.cpp` lines 318–326): no-op unless the
device is on; otherwise store the mode. No command is enqueued. -/
def set_mode (mode : Mode) (st : DeviceState) : DeviceState × List Char :=
  if st.is_on = false then
    (st, [])
  else
    ({ st with mode := mode }, [])

/-- `Server::handle_feedback` (`server.cpp` lines 39–59): the fixed
feedback vocabulary updates `actual_speed`; any other line is ignored. -/
def handle_feedback (feedback : String) (st : DeviceState) : DeviceState :=
  if feedback = "power_on" then
    { st with actual_speed := 1 }
  else if feedback = "power_off" then
    { st with actual_speed := 0 }
  else if feedback = "speed_up" then
    { st with actual_speed := st.actual_speed + 1 }
  else if feedback = "speed_down" then
    { st with actual_speed := st.actual_speed - 1 }
  else
    st

/-- The inner read loop of one `Server::rx_loop` iteration (`server.cpp`
lines 111–122): read bytes while `try_read` succeeds, stopping at (and
consuming) a newline; return the accumulated buffer and the unread rest of
the available input. -/
def readLine : List Char → List Char × List Char
  | [] => ([], [])
  | c :: rest =>
      if c = '\n' then
        ([], rest)
      else
        let p := readLine rest
        (c :: p.1, p.2)

/-- The line-handling tail of one `Server::rx_loop` iteration (`server.cpp`
lines 124–145): a non-empty buffer gets a NUL terminator appended and is
turned into a `std::string` (which stops at the first NUL), a trailing
carriage return is stripped, and the result is fed to `handle_feedback`.
An empty buffer changes nothing. -/
def rx_process (buffer : List Char) (st : DeviceState) : DeviceState :=
  if buffer = [] then
    st
  else
    let fb0 := buffer.takeWhile (fun c => c ≠ Char.ofNat 0)
    let fb := if fb0.getLast? = some '\r' then fb0.dropLast else fb0
    handle_feedback (String.mk fb) st

/-- One full iteration of `Server::rx_loop` over the bytes currently
available from the serial link. -/
def rx_iter (st : DeviceState) (avail : List Char) : DeviceState :=
  rx_process (readLine avail).1 st

/-- A mutation step of the device state: the three `Server` mutation
operations, plus one receive-loop iteration over available feedback bytes. -/
inductive Op where
  | setIsOn (is_on : Bool)
  | setSpeed (speed : Int)
  | setMode (mode : Mode)
  | feedback (avail : List Char)
deriving Repr

/-- Apply one `Op`, returning the new state and the commands enqueued. -/
def step (st : DeviceState) : Op → DeviceState × List Char
  | Op.setIsOn b => set_is_on b st
  | Op.setSpeed s => set_speed s st
  | Op.setMode m => set_mode m st
  | Op.feedback avail => (rx_iter st avail, [])

/-- Run a sequence of `Op`s, concatenating the enqueued commands. -/
def runOps (st : DeviceState) : List Op → DeviceState × List Char
  | [] => (st, [])
  | op :: rest =>
      let p := step st op
      let q := runOps p.1 rest
      (q.1, p.2 ++ q.2)

/-! ## Serial helpers (`serial.hpp`) -/

/-- `enum class BaudRate` (`serial.hpp` lines 18–36): the supported
termios baud-rate constants. -/
inductive BaudRate where
  | b50 | b75 | b110 | b134 | b150 | b200 | b300 | b600
  | b1200 | b1800 | b2400 | b4800 | b9600 | b19200 | b38400
deriving Repr, DecidableEq

/-- `serial::find_closest_baud_rate` (`serial.hpp` lines 38–57): a chain
of upper-bound tests, falling back to 9600 past 38400. -/
def find_closest_baud_rate (rate : Nat) : BaudRate :=
  if rate ≤ 50 then BaudRate.b50
  else if rate ≤ 75 then BaudRate.b75
  else if rate ≤ 110 then BaudRate.b110
  else if rate ≤ 134 then BaudRate.b134
  else if rate ≤ 150 then BaudRate.b150
  else if rate ≤ 200 then BaudRate.b200
  else if rate ≤ 300 then BaudRate.b300
  else if rate ≤ 600 then BaudRate.b600
  else if rate ≤ 1200 then BaudRate.b1200
  else if rate ≤ 1800 then BaudRate.b1800
  else if rate ≤ 2400 then BaudRate.b2400
  else if rate ≤ 4800 then BaudRate.b4800
  else if rate ≤ 9600 then BaudRate.b9600
  else if rate ≤ 19200 then BaudRate.b19200
  else if rate ≤ 38400 then BaudRate.b38400
  else BaudRate.b9600

/-- `serial::to_baud_rate_count` (`serial.hpp` lines 59–78). -/
def to_baud_rate_count (rate : BaudRate) : Nat :=
  match rate with
  | BaudRate.b50 => 50
  | BaudRate.b75 => 75
  | BaudRate.b110 => 110
  | BaudRate.b134 => 134
  | BaudRate.b150 => 150
  | BaudRate.b200 => 200
  | BaudRate.b300 => 300
  | BaudRate.b600 => 600
  | BaudRate.b1200 => 1200
  | BaudRate.b1800 => 1800
  | BaudRate.b2400 => 2400
  | BaudRate.b4800 => 4800
  | BaudRate.b9600 => 9600
  | BaudRate.b19200 => 19200
  | BaudRate.b38400 => 38400

/-- The supported baud-rate counts, in ascending order (spec-side
description used to compare against `find_closest_baud_rate`). -/
def supported_rates : List Nat :=
  [50, 75, 110, 134, 150, 200, 300, 600, 1200, 1800, 2400, 4800,
   9600, 19200, 38400]

/-- Spec-side definition: the smallest supported baud rate that is ≥ the
requested rate (9600 when none is). -/
def least_supported_ge (rate : Nat) : Nat :=
  (supported_rates.find? (fun s => rate ≤ s)).getD 9600

/-! ## Gateway (`gateway.cpp`)

The HTTP layer is embedded as data: an `httplib::Result` becomes
`Option HttpResponse` (`none` models `!res`), and a response body becomes
the `Option Json` result of `nlohmann::json::parse` (`none` models a parse
exception). Log lines become constructors carrying the data the source
formats into them. The responses to the outgoing `/setonline` and
`/setstate` posts are only fed to `check_status` for logging and are
abstracted away; the posts themselves are recorded as `GatewayEvent`s. -/

/-- A JSON value, as far as the gateway inspects one: objects, arrays,
strings, numbers, booleans, null. -/
inductive Json where
  | null
  | bool (b : Bool)
  | num (n : Int)
  | str (s : String)
  | arr (items : List Json)
  | obj (fields : List (String × Json))

/-- `json::contains(key)`: true iff an object carries the key. -/
def Json.containsKey (j : Json) (key : String) : Bool :=
  match j with
  | Json.obj fields => fields.any (fun f => f.1 = key)
  | _ => false

/-- `json::operator[](key)` on an object whose key is present. -/
def Json.getKey (j : Json) (key : String) : Json :=
  match j with
  | Json.obj fields =>
      match fields.find? (fun f => f.1 = key) with
      | some f => f.2
      | none => Json.null
  | _ => Json.null

/-- `json::is_object()`. -/
def Json.isObj (j : Json) : Bool :=
  match j with
  | Json.obj _ => true
  | _ => false

/-- `json::is_array()`, returning the elements when it is one. -/
def Json.asArr (j : Json) : Option (List Json) :=
  match j with
  | Json.arr items => some items
  | _ => none

/-- An HTTP response the gateway received: its status code and the result
of parsing its body as JSON (`none` when parsing would throw). -/
structure HttpResponse where
  status : Nat
  body : Option Json

/-- One log line emitted by the gateway, reduced to the data the source
interpolates: `invalidResponse` for `!res`, `fetchError` for a non-200
response with a decodable `error` field, `decodeFailure` for a non-200
response whose body cannot be decoded to an error (unparseable body or
missing `error` field — both reach the same `catch` block), and the two
malformed-task warnings of the 200 path. -/
inductive LogEntry where
  | invalidResponse
  | fetchError (status : Nat) (error : Json)
  | decodeFailure (status : Nat)
  | malformedBody
  | tasksNotArray
  | invalidSession

/-- `Gateway::check_status` (`gateway.cpp` lines 46–73): `true` exactly on
an HTTP 200 response, logging one line on every failure path. -/
def check_status (res : Option HttpResponse) : Bool × List LogEntry :=
  match res with
  | none => (false, [LogEntry.invalidResponse])
  | some r =>
      if r.status = 200 then
        (true, [])
      else
        match r.body with
        | none => (false, [LogEntry.decodeFailure r.status])
        | some j =>
            if j.containsKey "error" then
              (false, [LogEntry.fetchError r.status (j.getKey "error")])
            else
              (false, [LogEntry.decodeFailure r.status])

/-- Modelled from the spec: `dto.hpp` is not under `src/`, so `dto::Task`
and its `deserialize` are missing. The spec gives the task model as the
tagged union `{Power{is_on}, Speed{speed}, Mode{mode}}`; decoding a task
from JSON stays an explicit parameter of the poll loop. -/
inductive Task where
  | power (is_on : Bool)
  | speed (speed : Int)
  | mode (mode : Mode)

/-- A fixed concrete task decoder, used only to instantiate the decoder
parameter on concrete runs. -/
def decode0 : Json → Task := fun _ => Task.power false

/-- The dispatch of one decoded task (`gateway.cpp` lines 132–142). -/
def applyTask (st : DeviceState) : Task → DeviceState × List Char
  | Task.power b => set_is_on b st
  | Task.speed s => set_speed s st
  | Task.mode m => set_mode m st

/-- The observable outcome of one poll-loop iteration. -/
structure PollOutcome where
  state : DeviceState
  cmds : List Char
  logs : List LogEntry
  stateBroadcast : Bool
  slept : Bool
  crashed : Bool

/-- Fold the fetched task list through `applyTask`
(`gateway.cpp` lines 128–143). -/
def runTasks (decode : Json → Task) (st : DeviceState) (tasks : List Json) :
    DeviceState × List Char :=
  match tasks with
  | [] => (st, [])
  | t :: rest =>
      let p := applyTask st (decode t)
      let q := runTasks decode p.1 rest
      (q.1, p.2 ++ q.2)

/-- One iteration of the `while` body of `Gateway::update_loop`
(`gateway.cpp` lines 97–147), as a function of the `/fetch` response.
A failed `check_status` hits `continue`: no mutation, no broadcast, no
sleep. On a 200 response the body is re-parsed outside any `try` block in
a `noexcept` function, so an unparseable 200 body terminates the process
(`crashed`). Malformed bodies are logged and also skip the sleep. -/
def pollIter (decode : Json → Task) (st : DeviceState)
    (res : Option HttpResponse) : PollOutcome :=
  let c := check_status res
  if c.1 = false then
    { state := st, cmds := [], logs := c.2,
      stateBroadcast := false, slept := false, crashed := false }
  else
    match res with
    | none =>
        -- unreachable: `check_status none` is `false`
        { state := st, cmds := [], logs := c.2,
          stateBroadcast := false, slept := false, crashed := false }
    | some r =>
        match r.body with
        | none =>
            { state := st, cmds := [], logs := c.2,
              stateBroadcast := false, slept := false, crashed := true }
        | some j =>
            if ¬(j.isObj = true ∧ j.containsKey "tasks" = true) then
              { state := st, cmds := [], logs := c.2 ++ [LogEntry.malformedBody],
                stateBroadcast := false, slept := false, crashed := false }
            else
              match (j.getKey "tasks").asArr with
              | none =>
                  { state := st, cmds := [],
                    logs := c.2 ++ [LogEntry.tasksNotArray],
                    stateBroadcast := false, slept := false, crashed := false }
              | some tasks =>
                  let p := runTasks decode st tasks
                  { state := p.1, cmds := p.2, logs := c.2,
                    stateBroadcast := true, slept := true, crashed := false }

/-- `Gateway::create_session` (`gateway.cpp` lines 185–210), as a function
of the `/newsession` response: session established iff the response passes
`check_status` and carries a `password` field. Like the poll loop, a 200
response with an unparseable body would throw out of a `noexcept`
function (`crashed`). -/
def create_session (res : Option HttpResponse) : Bool × List LogEntry × Bool :=
  let c := check_status res
  if c.1 = false then
    (false, c.2 ++ [LogEntry.invalidSession], false)
  else
    match res with
    | none => (false, c.2 ++ [LogEntry.invalidSession], false)
    | some r =>
        match r.body with
        | none => (false, c.2, true)
        | some j =>
            if j.containsKey "password" then
              (true, c.2, false)
            else
              (false, c.2 ++ [LogEntry.invalidSession], false)

/-- An outward-facing post of the gateway: an online-status report
(`/setonline`) or a device-state snapshot (`/setstate`). -/
inductive GatewayEvent where
  | online (is_online : Bool)
  | stateBroadcast
deriving Repr, DecidableEq

/-- Whether a `/fetch` response drives the poll iteration into the
`noexcept` terminate path (HTTP 200 with an unparseable body). -/
def respCrashes (res : Option HttpResponse) : Bool :=
  match res with
  | some r => decide (r.status = 200) && r.body.isNone
  | none => false

/-- The observable outcome of a whole `Gateway::update_loop` run. -/
structure RunOutcome where
  events : List GatewayEvent
  state : DeviceState
  cmds : List Char
  logs : List LogEntry
  crashed : Bool

/-- The `while` loop of `Gateway::update_loop`: consume one `/fetch`
response per iteration until the running flag is observed false (the list
is exhausted), stopping early if an iteration terminates the process. -/
def loopRun (decode : Json → Task) (st : DeviceState) :
    List (Option HttpResponse) → DeviceState × List Char × List GatewayEvent × List LogEntry × Bool
  | [] => (st, [], [], [], false)
  | res :: rest =>
      let o := pollIter decode st res
      if o.crashed then
        (o.state, o.cmds, [], o.logs, true)
      else
        let q := loopRun decode o.state rest
        (q.1,
         o.cmds ++ q.2.1,
         (if o.stateBroadcast then [GatewayEvent.stateBroadcast] else []) ++ q.2.2.1,
         o.logs ++ q.2.2.2.1,
         q.2.2.2.2)

/-- `Gateway::update_loop` (`gateway.cpp` lines 75–150): broadcast
online-status true, create a session (returning early on failure — note
no offline broadcast happens on that path), run the poll loop, and
broadcast online-status false on the way out. -/
def update_loop (decode : Json → Task) (st : DeviceState)
    (sessionRes : Option HttpResponse)
    (fetches : List (Option HttpResponse)) : RunOutcome :=
  let s := create_session sessionRes
  if s.2.2 = true then
    { events := [GatewayEvent.online true], state := st, cmds := [],
      logs := s.2.1, crashed := true }
  else if s.1 = false then
    { events := [GatewayEvent.online true], state := st, cmds := [],
      logs := s.2.1, crashed := false }
  else
    let l := loopRun decode st fetches
    if l.2.2.2.2 = true then
      { events := GatewayEvent.online true :: l.2.2.1,
        state := l.1, cmds := l.2.1, logs := s.2.1 ++ l.2.2.2.1,
        crashed := true }
    else
      { events := GatewayEvent.online true :: (l.2.2.1 ++ [GatewayEvent.online false]),
        state := l.1, cmds := l.2.1, logs := s.2.1 ++ l.2.2.2.1,
        crashed := false }

/-! ## Helper lemmas -/

theorem set_is_on_mode (b : Bool) (st : DeviceState) :
    (set_is_on b st).1.mode = st.mode := by
  unfold set_is_on
  split <;> rfl

theorem set_is_on_actual (b : Bool) (st : DeviceState) :
    (set_is_on b st).1.actual_speed = st.actual_speed := by
  unfold set_is_on
  split <;> rfl

theorem speed_steps_mode (t : Int) (st : DeviceState) :
    (speed_steps t st).1.mode = st.mode := rfl

theorem set_speed_mode (t : Int) (st : DeviceState) :
    (set_speed t st).1.mode = st.mode := by
  unfold set_speed
  split
  · rw [speed_steps_mode, set_is_on_mode]
  · split
    · rw [set_is_on_mode]
    · rw [speed_steps_mode]

theorem handle_feedback_mode (fb : String) (st : DeviceState) :
    (handle_feedback fb st).mode = st.mode := by
  unfold handle_feedback
  split <;> try rfl
  split <;> try rfl
  split <;> try rfl
  split <;> rfl

theorem handle_feedback_target (fb : String) (st : DeviceState) :
    (handle_feedback fb st).target_speed = st.target_speed := by
  unfold handle_feedback
  split <;> try rfl
  split <;> try rfl
  split <;> try rfl
  split <;> rfl

theorem rx_process_mode (buffer : List Char) (st : DeviceState) :
    (rx_process buffer st).mode = st.mode := by
  unfold rx_process
  split
  · rfl
  · rw [handle_feedback_mode]

theorem rx_process_target (buffer : List Char) (st : DeviceState) :
    (rx_process buffer st).target_speed = st.target_speed := by
  unfold rx_process
  split
  · rfl
  · rw [handle_feedback_target]

theorem rx_iter_mode (st : DeviceState) (avail : List Char) :
    (rx_iter st avail).mode = st.mode := rx_process_mode _ _

theorem rx_iter_target (st : DeviceState) (avail : List Char) :
    (rx_iter st avail).target_speed = st.target_speed := rx_process_target _ _

theorem runOps_cons (st : DeviceState) (op : Op) (ops : List Op) :
    (runOps st (op :: ops)).1 = (runOps (step st op).1 ops).1 := rfl

theorem step_mode_of_not_setMode (st : DeviceState) (op : Op)
    (h : ∀ m, op ≠ Op.setMode m) : (step st op).1.mode = st.mode := by
  cases op with
  | setIsOn b => exact set_is_on_mode b st
  | setSpeed s => exact set_speed_mode s st
  | setMode m => exact absurd rfl (h m)
  | feedback avail => exact rx_iter_mode st avail

theorem step_setMode_off (st : DeviceState) (m : Mode)
    (h : st.is_on = false) : step st (Op.setMode m) = (st, []) := by
  simp [step, set_mode, h]

theorem set_mode_target (m : Mode) (st : DeviceState) :
    (set_mode m st).1.target_speed = st.target_speed := by
  unfold set_mode
  split <;> rfl

/-- Every branch of `set_speed` ends by storing the requested speed (the
early-return branch stores 0, but fires only when the request is 0). -/
theorem set_speed_target (t : Int) (st : DeviceState) :
    (set_speed t st).1.target_speed = t := by
  unfold set_speed
  split
  · rfl
  · split
    · next h => simp [set_is_on, h.1, h.2]
    · rfl

theorem set_is_on_target_cases (b : Bool) (st : DeviceState) :
    (set_is_on b st).1.target_speed = st.target_speed ∨
      (set_is_on b st).1.target_speed = 1 ∨
      (set_is_on b st).1.target_speed = 0 := by
  unfold set_is_on
  split
  · exact Or.inl rfl
  · cases b
    · exact Or.inr (Or.inr rfl)
    · exact Or.inr (Or.inl rfl)

/-- The buffer accumulated by the inner read loop is the prefix of the
available input up to a newline — or the whole input when none occurs
before the read times out. -/
theorem readLine_fst (l : List Char) :
    (readLine l).1 = l.takeWhile (fun c => c ≠ '\n') := by
  induction l with
  | nil => rfl
  | cons c rest ih =>
      by_cases h : c = '\n'
      · subst h
        simp [readLine, List.takeWhile_cons]
      · simp [readLine, List.takeWhile_cons, h, ih]

theorem set_is_on_vocab (b : Bool) (st : DeviceState) (c : Char)
    (hc : c ∈ (set_is_on b st).2) : c = MESSAGE_ON ∨ c = MESSAGE_OFF := by
  unfold set_is_on at hc
  split at hc
  · simp at hc
  · simp only [List.mem_singleton] at hc
    subst hc
    cases b
    · exact Or.inr rfl
    · exact Or.inl rfl

theorem speed_steps_vocab (t : Int) (st : DeviceState) (c : Char)
    (hc : c ∈ (speed_steps t st).2) : c = MESSAGE_HIGHER ∨ c = MESSAGE_LOWER := by
  unfold speed_steps at hc
  simp only at hc
  split at hc
  · exact Or.inl (List.eq_of_mem_replicate hc)
  · split at hc
    · exact Or.inr (List.eq_of_mem_replicate hc)
    · simp at hc

theorem set_speed_vocab (t : Int) (st : DeviceState) (c : Char)
    (hc : c ∈ (set_speed t st).2) :
    c = MESSAGE_ON ∨ c = MESSAGE_OFF ∨ c = MESSAGE_HIGHER ∨ c = MESSAGE_LOWER := by
  unfold set_speed at hc
  split at hc
  · simp only [List.mem_append] at hc
    rcases hc with hc | hc
    · rcases set_is_on_vocab true st c hc with h | h
      · exact Or.inl h
      · exact Or.inr (Or.inl h)
    · rcases speed_steps_vocab _ _ c hc with h | h
      · exact Or.inr (Or.inr (Or.inl h))
      · exact Or.inr (Or.inr (Or.inr h))
  · split at hc
    · rcases set_is_on_vocab false st c hc with h | h
      · exact Or.inl h
      · exact Or.inr (Or.inl h)
    · rcases speed_steps_vocab _ _ c hc with h | h
      · exact Or.inr (Or.inr (Or.inl h))
      · exact Or.inr (Or.inr (Or.inr h))

/-- When the device is on and a positive speed is requested, `set_speed`
is just its step-command phase: neither power-transition branch fires. -/
theorem set_speed_on_pos (t : Int) (st : DeviceState)
    (hon : st.is_on = true) (hpos : 0 < t) :
    set_speed t st = speed_steps t st := by
  unfold set_speed
  rw [if_neg, if_neg]
  · intro h
    omega
  · intro h
    rw [hon] at h
    exact absurd h.1 (by simp)

/-! ## Claim theorems -/

/-- C1: while the device is on and the requested target is positive (so no
power transition fires), `set_speed t` enqueues exactly
`|t − target_speed_old|` single-step commands — HIGHER per unit if the
target rises, LOWER per unit if it falls, none if equal — and stores `t`
as the new target speed. -/
theorem C1_set_speed_step_commands (st : DeviceState) (t : Int)
    (hon : st.is_on = true) (hpos : 0 < t) :
    (set_speed t st).2 =
        (if st.target_speed < t then
          List.replicate (t - st.target_speed).toNat MESSAGE_HIGHER
        else
          List.replicate (st.target_speed - t).toNat MESSAGE_LOWER) ∧
      (set_speed t st).2.length = (t - st.target_speed).natAbs ∧
      (set_speed t st).1.target_speed = t := by
  rw [set_speed_on_pos t st hon hpos]
  unfold speed_steps
  refine ⟨?_, ?_, rfl⟩
  · by_cases h1 : st.target_speed < t
    · simp [h1]
    · by_cases h2 : t < st.target_speed
      · simp [h1, h2]
      · have he : st.target_speed = t := by omega
        simp [he]
  · by_cases h1 : st.target_speed < t
    · simp [h1]
      omega
    · by_cases h2 : t < st.target_speed
      · simp [h1, h2]
        omega
      · simp [h1, h2]
        omega

/-- Witness for C1: from the on-state with target 2, requesting 5 enqueues
three HIGHER bytes and stores target 5. -/
theorem C1_set_speed_step_commands_witness :
    (set_speed 5 ⟨true, Mode.DEFAULT, 2, 2⟩).2 =
        (if (2 : Int) < 5 then
          List.replicate ((5 : Int) - 2).toNat MESSAGE_HIGHER
        else
          List.replicate ((2 : Int) - 5).toNat MESSAGE_LOWER) ∧
      (set_speed 5 ⟨true, Mode.DEFAULT, 2, 2⟩).2.length = ((5 : Int) - 2).natAbs ∧
      (set_speed 5 ⟨true, Mode.DEFAULT, 2, 2⟩).1.target_speed = 5 :=
  C1_set_speed_step_commands ⟨true, Mode.DEFAULT, 2, 2⟩ 5 rfl (by decide)

/-- C4: power coupling of `set_speed`. Requesting 0 while on enqueues
exactly one OFF command (and no step commands) and turns the device off;
requesting `t > 0` while off with target 0 enqueues ON followed by exactly
`t − 1` HIGHER commands, ending on with target `t`. -/
theorem C4_set_speed_power_coupling :
    (∀ st : DeviceState, st.is_on = true →
      set_speed 0 st =
        ({ st with is_on := false, target_speed := 0 }, [MESSAGE_OFF])) ∧
    (∀ (st : DeviceState) (t : Int), st.is_on = false → st.target_speed = 0 →
      0 < t →
      set_speed t st =
        ({ st with is_on := true, target_speed := t },
          MESSAGE_ON :: List.replicate (t - 1).toNat MESSAGE_HIGHER)) := by
  constructor
  · intro st hon
    unfold set_speed set_is_on
    rw [hon]
    simp
  · intro st t hoff htgt hpos
    unfold set_speed set_is_on speed_steps
    rw [hoff, htgt]
    simp only [hpos, if_true, true_and, and_true, if_pos trivial]
    by_cases h1 : (1 : Int) < t
    · simp [h1]
    · have ht1 : t = 1 := by omega
      subst ht1
      simp

/-- Witness for C4: turning a running device (target 3) off, and driving a
fresh off device to speed 4 (yielding `[ON, HIGHER, HIGHER, HIGHER]`). -/
theorem C4_set_speed_power_coupling_witness :
    set_speed 0 ⟨true, Mode.DEFAULT, 3, 3⟩ =
        (⟨false, Mode.DEFAULT, 0, 3⟩, [MESSAGE_OFF]) ∧
      set_speed 4 initState =
        (⟨true, Mode.DEFAULT, 4, 0⟩,
          [MESSAGE_ON, MESSAGE_HIGHER, MESSAGE_HIGHER, MESSAGE_HIGHER]) :=
  ⟨C4_set_speed_power_coupling.1 ⟨true, Mode.DEFAULT, 3, 3⟩ rfl,
    C4_set_speed_power_coupling.2 initState 4 rfl rfl (by decide)⟩


/-- C2 counterexample: `set_speed` does not clamp — from the initial state
`set_speed 33` leaves `target_speed = 33 > MAX_SPEED`, and 33 `speed_up`
feedback lines drive `actual_speed` to `33 > MAX_SPEED`. -/
theorem C2_counterexample :
    (runOps initState [Op.setSpeed 33]).1.target_speed = 33 ∧
      MAX_SPEED < (runOps initState [Op.setSpeed 33]).1.target_speed ∧
      (runOps initState
          (List.replicate 33 (Op.feedback ("speed_up\n".toList)))).1.actual_speed = 33 ∧
      MAX_SPEED < (runOps initState
          (List.replicate 33 (Op.feedback ("speed_up\n".toList)))).1.actual_speed :=
  ⟨by decide, by decide, by decide, by decide⟩

/-- C2 (amended): `target_speed` stays within `[MIN_SPEED, MAX_SPEED]` for
every sequence of mutation operations and feedback lines starting from the
initial state, provided every `set_speed` argument lies in `[0, 32]`
(`set_speed` itself does not clamp, and feedback can push `actual_speed`
outside the range). -/
theorem C2_target_speed_bounded (ops : List Op)
    (hargs : ∀ t : Int, Op.setSpeed t ∈ ops → 0 ≤ t ∧ t ≤ 32) :
    MIN_SPEED ≤ (runOps initState ops).1.target_speed ∧
      (runOps initState ops).1.target_speed ≤ MAX_SPEED := by
  unfold MIN_SPEED MAX_SPEED
  suffices h : ∀ st : DeviceState,
      (∀ t : Int, Op.setSpeed t ∈ ops → 0 ≤ t ∧ t ≤ 32) →
      0 ≤ st.target_speed → st.target_speed ≤ 32 →
      0 ≤ (runOps st ops).1.target_speed ∧ (runOps st ops).1.target_speed ≤ 32 by
    exact h initState hargs (by decide) (by decide)
  clear hargs
  induction ops with
  | nil =>
      intro st _ h0 h32
      exact ⟨h0, h32⟩
  | cons op rest ih =>
      intro st hargs h0 h32
      rw [runOps_cons]
      have hb : 0 ≤ (step st op).1.target_speed ∧ (step st op).1.target_speed ≤ 32 := by
        cases op with
        | setIsOn b =>
            have heq : (step st (Op.setIsOn b)).1 = (set_is_on b st).1 := rfl
            rw [heq]
            rcases set_is_on_target_cases b st with h | h | h <;> rw [h] <;> omega
        | setSpeed t =>
            have ht := hargs t (List.mem_cons_self _ _)
            have heq : (step st (Op.setSpeed t)).1 = (set_speed t st).1 := rfl
            rw [heq, set_speed_target]
            omega
        | setMode m =>
            have heq : (step st (Op.setMode m)).1 = (set_mode m st).1 := rfl
            rw [heq, set_mode_target]
            omega
        | feedback avail =>
            have heq : (step st (Op.feedback avail)).1 = rx_iter st avail := rfl
            rw [heq, rx_iter_target]
            omega
      exact ih (step st op).1 (fun t ht => hargs t (List.mem_cons_of_mem _ ht)) hb.1 hb.2

/-- Witness for C2 (amended): a concrete in-range trace keeps the target
within bounds. -/
theorem C2_target_speed_bounded_witness :
    MIN_SPEED ≤ (runOps initState [Op.setSpeed 20, Op.setIsOn false]).1.target_speed ∧
      (runOps initState [Op.setSpeed 20, Op.setIsOn false]).1.target_speed ≤ MAX_SPEED :=
  C2_target_speed_bounded [Op.setSpeed 20, Op.setIsOn false] (by
    intro t ht
    simp only [List.mem_cons, List.not_mem_nil, or_false] at ht
    rcases ht with h | h
    · injection h with h
      subst h
      omega
    · exact Op.noConfusion h)

/-- C3 counterexample: the receive loop does not wait for a line
terminator — when the reads time out with `speed_up` buffered and no
newline received, the buffer is handled as a complete line and
`actual_speed` is incremented. -/
theorem C3_counterexample :
    (rx_iter initState ("speed_up".toList)).actual_speed = 1 ∧
      ("speed_up".toList).contains '\n' = false :=
  ⟨by decide, by decide⟩

/-- C3 (amended): each feedback token updates `actual_speed` as specified
(`power_on` ↦ 1, `power_off` ↦ 0, `speed_up` ↦ +1, `speed_down` ↦ −1), any
other line leaves the state unchanged, a trailing carriage return is
stripped before classification, empty lines cause no state change — and a
byte sequence is treated as a complete line when a newline arrives or when
the read times out with a non-empty buffer (not only after a terminator). -/
theorem C3_receive_parsing :
    (∀ st : DeviceState,
      handle_feedback "power_on" st = { st with actual_speed := 1 }) ∧
    (∀ st : DeviceState,
      handle_feedback "power_off" st = { st with actual_speed := 0 }) ∧
    (∀ st : DeviceState,
      handle_feedback "speed_up" st =
        { st with actual_speed := st.actual_speed + 1 }) ∧
    (∀ st : DeviceState,
      handle_feedback "speed_down" st =
        { st with actual_speed := st.actual_speed - 1 }) ∧
    (∀ (st : DeviceState) (fb : String), fb ≠ "power_on" → fb ≠ "power_off" →
      fb ≠ "speed_up" → fb ≠ "speed_down" → handle_feedback fb st = st) ∧
    (∀ (st : DeviceState) (avail : List Char),
      rx_iter st avail = rx_process (avail.takeWhile (fun c => c ≠ '\n')) st) ∧
    (∀ (st : DeviceState) (line : List Char), Char.ofNat 0 ∉ line →
      rx_process (line ++ ['\r']) st = handle_feedback (String.mk line) st) ∧
    (∀ st : DeviceState, rx_process [] st = st) := by
  refine ⟨fun st => rfl, fun st => rfl, fun st => rfl, fun st => rfl,
    ?_, ?_, ?_, fun st => rfl⟩
  · intro st fb h1 h2 h3 h4
    unfold handle_feedback
    rw [if_neg h1, if_neg h2, if_neg h3, if_neg h4]
  · intro st avail
    unfold rx_iter
    rw [readLine_fst]
  · intro st line hnul
    unfold rx_process
    rw [if_neg (by simp)]
    have h1 : (line ++ ['\r']).takeWhile (fun c => c ≠ Char.ofNat 0) =
        line ++ ['\r'] := by
      rw [List.takeWhile_eq_self_iff]
      intro x hx
      rcases List.mem_append.mp hx with hx | hx
      · simp only [ne_eq, decide_eq_true_eq]
        intro hc
        exact hnul (hc ▸ hx)
      · simp only [List.mem_singleton] at hx
        subst hx
        decide
    simp only [h1, List.getLast?_concat, List.dropLast_concat, if_pos rfl]
    simp

/-- Witness for C3 (amended): an unrecognized line leaves the initial
state unchanged, and a CR-terminated `speed_up` line is classified after
stripping the CR. -/
theorem C3_receive_parsing_witness :
    handle_feedback "garbage" initState = initState ∧
      rx_process ("speed_up".toList ++ ['\r']) initState =
        handle_feedback (String.mk "speed_up".toList) initState :=
  ⟨C3_receive_parsing.2.2.2.2.1 initState "garbage"
      (by decide) (by decide) (by decide) (by decide),
    C3_receive_parsing.2.2.2.2.2.2.1 initState ("speed_up".toList) (by decide)⟩

/-- C5: `set_is_on` is idempotent — a no-op (no command, no state change)
when the device is already in the requested power state; otherwise it
enqueues exactly one ON/OFF command, sets `is_on`, and resets
`target_speed` to 1 (on) or 0 (off). Two successive `set_is_on true`
calls from the off state enqueue exactly one ON command and leave the
device on. -/
theorem C5_set_is_on_contract :
    (∀ (b : Bool) (st : DeviceState), st.is_on = b → set_is_on b st = (st, [])) ∧
    (∀ (b : Bool) (st : DeviceState), st.is_on ≠ b →
      set_is_on b st =
        ({ st with is_on := b, target_speed := if b then 1 else 0 },
          [if b then MESSAGE_ON else MESSAGE_OFF])) ∧
    (∀ st : DeviceState, st.is_on = false →
      (runOps st [Op.setIsOn true, Op.setIsOn true]).2 = [MESSAGE_ON] ∧
      (runOps st [Op.setIsOn true, Op.setIsOn true]).1.is_on = true) := by
  refine ⟨?_, ?_, ?_⟩
  · intro b st h
    simp [set_is_on, h]
  · intro b st h
    simp [set_is_on, h]
  · intro st h
    refine ⟨?_, ?_⟩ <;> simp [runOps, step, set_is_on, h]

/-- Witness for C5: a no-op on an already-on device, a single ON from the
initial state, and the double-call scenario from the initial state. -/
theorem C5_set_is_on_contract_witness :
    set_is_on true ⟨true, Mode.DEFAULT, 5, 5⟩ = (⟨true, Mode.DEFAULT, 5, 5⟩, []) ∧
      set_is_on true initState = (⟨true, Mode.DEFAULT, 1, 0⟩, [MESSAGE_ON]) ∧
      (runOps initState [Op.setIsOn true, Op.setIsOn true]).2 = [MESSAGE_ON] ∧
      (runOps initState [Op.setIsOn true, Op.setIsOn true]).1.is_on = true :=
  ⟨C5_set_is_on_contract.1 true ⟨true, Mode.DEFAULT, 5, 5⟩ rfl,
    C5_set_is_on_contract.2.1 true initState (by decide),
    (C5_set_is_on_contract.2.2 initState rfl).1,
    (C5_set_is_on_contract.2.2 initState rfl).2⟩

/-- C6: `MESSAGE_MODE` is declared as `'m'` and every byte enqueued by a
mutation operation is ON/OFF/HIGHER/LOWER — but, contrary to the claim and
to the declared five-opcode vocabulary, `set_mode` enqueues nothing at
all (the source carries a `TODO: implement mode selection`): at the
failing input `set_mode` on a powered-on device only stores the mode
field. -/
theorem C6_mode_byte_never_enqueued :
    MESSAGE_MODE = 'm' ∧
    (∀ (st : DeviceState) (op : Op),
      (step st op).2.all
        (fun c => c = MESSAGE_ON ∨ c = MESSAGE_OFF ∨
          c = MESSAGE_HIGHER ∨ c = MESSAGE_LOWER) = true) ∧
    (∀ (m : Mode) (st : DeviceState), (set_mode m st).2 = []) ∧
    set_mode (1 : Mode) ⟨true, Mode.DEFAULT, 1, 1⟩ =
      (⟨true, (1 : Mode), 1, 1⟩, []) := by
  refine ⟨rfl, ?_, ?_, rfl⟩
  · intro st op
    rw [List.all_eq_true]
    intro c hc
    refine decide_eq_true ?_
    cases op with
    | setIsOn b =>
        rcases set_is_on_vocab b st c hc with h | h
        · exact Or.inl h
        · exact Or.inr (Or.inl h)
    | setSpeed t => exact set_speed_vocab t st c hc
    | setMode m =>
        have hnil : (step st (Op.setMode m)).2 = [] := by
          simp only [step]
          unfold set_mode
          split <;> rfl
        rw [hnil] at hc
        simp at hc
    | feedback avail => simp [step] at hc
  · intro m st
    unfold set_mode
    split <;> rfl

/-- C7: `set_mode` leaves the state (and queue) unchanged while the device
is off, stores the mode unconditionally while it is on, and along any
operation trace the mode can differ from its starting value only if some
`set_mode` occurred at a point where the device was on. -/
theorem C7_set_mode_gated_by_power :
    (∀ (m : Mode) (st : DeviceState), st.is_on = false →
      set_mode m st = (st, [])) ∧
    (∀ (m : Mode) (st : DeviceState), st.is_on = true →
      set_mode m st = ({ st with mode := m }, [])) ∧
    (∀ (st : DeviceState) (ops : List Op),
      (runOps st ops).1.mode ≠ st.mode →
      ∃ pre m suf, ops = pre ++ Op.setMode m :: suf ∧
        (runOps st pre).1.is_on = true) := by
  refine ⟨?_, ?_, ?_⟩
  · intro m st h
    simp [set_mode, h]
  · intro m st h
    simp [set_mode, h]
  · intro st ops
    induction ops generalizing st with
    | nil =>
        intro h
        exact absurd rfl h
    | cons op rest ih =>
        intro h
        cases op with
        | setMode m =>
            by_cases hon : st.is_on = true
            · exact ⟨[], m, rest, rfl, hon⟩
            · have hoff : st.is_on = false := by
                cases hb : st.is_on
                · rfl
                · exact absurd hb hon
              have hstep : step st (Op.setMode m) = (st, []) :=
                step_setMode_off st m hoff
              have h2 : (runOps st rest).1.mode ≠ st.mode := by
                rw [runOps_cons, hstep] at h
                exact h
              obtain ⟨pre, m2, suf, hsplit, hpre⟩ := ih st h2
              refine ⟨Op.setMode m :: pre, m2, suf,
                by rw [hsplit, List.cons_append], ?_⟩
              rw [runOps_cons, hstep]
              exact hpre
        | setIsOn b =>
            have hm : (step st (Op.setIsOn b)).1.mode = st.mode :=
              step_mode_of_not_setMode st _ (by intro m hc; cases hc)
            have h2 : (runOps (step st (Op.setIsOn b)).1 rest).1.mode ≠
                (step st (Op.setIsOn b)).1.mode := by
              rw [runOps_cons] at h
              rw [hm]
              exact h
            obtain ⟨pre, m2, suf, hsplit, hpre⟩ := ih _ h2
            refine ⟨Op.setIsOn b :: pre, m2, suf,
              by rw [hsplit, List.cons_append], ?_⟩
            rw [runOps_cons]
            exact hpre
        | setSpeed t =>
            have hm : (step st (Op.setSpeed t)).1.mode = st.mode :=
              step_mode_of_not_setMode st _ (by intro m hc; cases hc)
            have h2 : (runOps (step st (Op.setSpeed t)).1 rest).1.mode ≠
                (step st (Op.setSpeed t)).1.mode := by
              rw [runOps_cons] at h
              rw [hm]
              exact h
            obtain ⟨pre, m2, suf, hsplit, hpre⟩ := ih _ h2
            refine ⟨Op.setSpeed t :: pre, m2, suf,
              by rw [hsplit, List.cons_append], ?_⟩
            rw [runOps_cons]
            exact hpre
        | feedback avail =>
            have hm : (step st (Op.feedback avail)).1.mode = st.mode :=
              step_mode_of_not_setMode st _ (by intro m hc; cases hc)
            have h2 : (runOps (step st (Op.feedback avail)).1 rest).1.mode ≠
                (step st (Op.feedback avail)).1.mode := by
              rw [runOps_cons] at h
              rw [hm]
              exact h
            obtain ⟨pre, m2, suf, hsplit, hpre⟩ := ih _ h2
            refine ⟨Op.feedback avail :: pre, m2, suf,
              by rw [hsplit, List.cons_append], ?_⟩
            rw [runOps_cons]
            exact hpre

/-- Witness for C7: `set_mode` ignored while off, applied while on, and a
concrete trace whose mode change is traced back to a powered-on
`set_mode`. -/
theorem C7_set_mode_gated_by_power_witness :
    set_mode (1 : Mode) initState = (initState, []) ∧
      set_mode (1 : Mode) ⟨true, Mode.DEFAULT, 1, 1⟩ =
        (⟨true, (1 : Mode), 1, 1⟩, []) ∧
      ∃ pre m suf,
        [Op.setIsOn true, Op.setMode (1 : Mode)] = pre ++ Op.setMode m :: suf ∧
          (runOps initState pre).1.is_on = true :=
  ⟨C7_set_mode_gated_by_power.1 (1 : Mode) initState rfl,
    C7_set_mode_gated_by_power.2.1 (1 : Mode) ⟨true, Mode.DEFAULT, 1, 1⟩ rfl,
    C7_set_mode_gated_by_power.2.2 initState
      [Op.setIsOn true, Op.setMode (1 : Mode)] (by decide)⟩

/-- `check_status` rejects anything that is not an HTTP 200 response. -/
theorem check_status_false_of_not_200 (res : Option HttpResponse)
    (hfail : ∀ r : HttpResponse, res = some r → r.status ≠ 200) :
    (check_status res).1 = false := by
  cases res with
  | none => rfl
  | some r =>
      have hns := hfail r rfl
      simp only [check_status]
      rw [if_neg hns]
      cases hb : r.body with
      | none => rfl
      | some j =>
          dsimp only
          split <;> rfl

/-- Every failing `check_status` path logs exactly one line. -/
theorem check_status_logs_one (res : Option HttpResponse)
    (hfail : ∀ r : HttpResponse, res = some r → r.status ≠ 200) :
    (check_status res).2.length = 1 := by
  cases res with
  | none => rfl
  | some r =>
      have hns := hfail r rfl
      simp only [check_status]
      rw [if_neg hns]
      cases hb : r.body with
      | none => rfl
      | some j =>
          dsimp only
          split <;> rfl

/-- A session-creation success never comes from the terminate path. -/
theorem create_session_ok_not_crashed (res : Option HttpResponse)
    (h : (create_session res).1 = true) : (create_session res).2.2 = false := by
  cases res with
  | none => simp [create_session, check_status] at h
  | some r =>
      cases hb : r.body with
      | none =>
          by_cases hst : r.status = 200
          · simp [create_session, check_status, hst, hb] at h
          · simp [create_session, check_status, hst, hb] at h
      | some j =>
          by_cases hst : r.status = 200
          · by_cases hpw : j.containsKey "password" = true
            · simp [create_session, check_status, hst, hb, hpw]
            · simp [create_session, check_status, hst, hb, hpw] at h
          · by_cases herr : j.containsKey "error" = true
            · simp [create_session, check_status, hst, hb, herr] at h
            · simp [create_session, check_status, hst, hb, herr] at h

/-- A poll iteration terminates the process exactly on an HTTP 200
response with an unparseable body. -/
theorem pollIter_crashed (decode : Json → Task) (st : DeviceState)
    (res : Option HttpResponse) :
    (pollIter decode st res).crashed = respCrashes res := by
  cases res with
  | none => rfl
  | some r =>
      cases hb : r.body with
      | none =>
          by_cases hst : r.status = 200
          · simp [pollIter, check_status, respCrashes, hst, hb]
          · simp [pollIter, check_status, respCrashes, hst, hb]
      | some j =>
          by_cases hst : r.status = 200
          · simp [pollIter, check_status, respCrashes, hst, hb]
            split
            · rfl
            · split <;> rfl
          · by_cases herr : j.containsKey "error" = true
            · simp [pollIter, check_status, respCrashes, hst, hb, herr]
            · simp [pollIter, check_status, respCrashes, hst, hb, herr]

/-- When no fetch response hits the terminate path, the poll loop itself
never crashes and emits only state broadcasts (never an online-status
event). -/
theorem loopRun_no_crash (decode : Json → Task)
    (fetches : List (Option HttpResponse))
    (hnc : ∀ f ∈ fetches, respCrashes f = false) :
    ∀ st : DeviceState,
      (loopRun decode st fetches).2.2.2.2 = false ∧
      ∀ e ∈ (loopRun decode st fetches).2.2.1, e = GatewayEvent.stateBroadcast := by
  induction fetches with
  | nil =>
      intro st
      exact ⟨rfl, by intro e he; simp [loopRun] at he⟩
  | cons f rest ih =>
      intro st
      have hf : respCrashes f = false := hnc f (List.mem_cons_self _ _)
      have hcr : (pollIter decode st f).crashed = false := by
        rw [pollIter_crashed]
        exact hf
      have ihr := ih (fun g hg => hnc g (List.mem_cons_of_mem _ hg))
      simp only [loopRun]
      rw [hcr]
      simp only [Bool.false_eq_true, if_false]
      constructor
      · exact (ihr (pollIter decode st f).state).1
      · intro e he
        simp only [List.mem_append] at he
        rcases he with he | he
        · split at he
          · simp only [List.mem_singleton] at he
            exact he
          · simp at he
        · exact (ihr (pollIter decode st f).state).2 e he

/-- C8: in a poll iteration whose fetch response is absent or not HTTP
200, no device mutation happens, no state broadcast is sent, no sleep is
performed, and exactly one error log line is emitted — from the decoded
`error` field when the body carries one, otherwise a decode-failure
message. -/
theorem C8_fetch_error_path (decode : Json → Task) (st : DeviceState)
    (res : Option HttpResponse)
    (hfail : ∀ r : HttpResponse, res = some r → r.status ≠ 200) :
    pollIter decode st res =
        { state := st, cmds := [], logs := (check_status res).2,
          stateBroadcast := false, slept := false, crashed := false } ∧
      (check_status res).2.length = 1 ∧
      (∀ (r : HttpResponse) (j : Json), res = some r → r.body = some j →
        j.containsKey "error" = true →
        (check_status res).2 = [LogEntry.fetchError r.status (j.getKey "error")]) ∧
      (∀ (r : HttpResponse) (j : Json), res = some r → r.body = some j →
        j.containsKey "error" = false →
        (check_status res).2 = [LogEntry.decodeFailure r.status]) := by
  have hcs := check_status_false_of_not_200 res hfail
  refine ⟨?_, check_status_logs_one res hfail, ?_, ?_⟩
  · unfold pollIter
    rw [if_pos hcs]
  · intro r j hr hj herr
    subst hr
    have hns := hfail r rfl
    simp only [check_status]
    rw [if_neg hns, hj]
    dsimp only
    rw [if_pos herr]
  · intro r j hr hj herr
    subst hr
    have hns := hfail r rfl
    simp only [check_status]
    rw [if_neg hns, hj]
    dsimp only
    rw [if_neg (by rw [herr]; exact Bool.false_ne_true)]

/-- Witness for C8: an HTTP 403 fetch response with body
`{"error": "bad password"}` mutates nothing, broadcasts nothing, skips
the sleep, and logs exactly the decoded error. -/
theorem C8_fetch_error_path_witness :
    pollIter decode0 initState
        (some ⟨403, some (Json.obj [("error", Json.str "bad password")])⟩) =
      { state := initState, cmds := [],
        logs := [LogEntry.fetchError 403 (Json.str "bad password")],
        stateBroadcast := false, slept := false, crashed := false } ∧
    (check_status
        (some ⟨403, some (Json.obj [("error", Json.str "bad password")])⟩)).2 =
      [LogEntry.fetchError 403 (Json.str "bad password")] := by
  have h := C8_fetch_error_path decode0 initState
    (some ⟨403, some (Json.obj [("error", Json.str "bad password")])⟩)
    (by intro r hr; cases hr; decide)
  refine ⟨?_, ?_⟩
  · rw [h.1]
    have h2 := h.2.2.1 ⟨403, some (Json.obj [("error", Json.str "bad password")])⟩
      (Json.obj [("error", Json.str "bad password")]) rfl rfl rfl
    rw [h2]
    rfl
  · exact h.2.2.1 ⟨403, some (Json.obj [("error", Json.str "bad password")])⟩
      (Json.obj [("error", Json.str "bad password")]) rfl rfl rfl

/-- C9 counterexample: when session creation fails, `update_loop` returns
before its trailing offline broadcast — the completed run broadcasts
online-status false zero times, not exactly once. -/
theorem C9_counterexample :
    (update_loop decode0 initState
        (some ⟨500, some (Json.obj [("error", Json.str "bad password")])⟩)
        []).events = [GatewayEvent.online true] ∧
      (update_loop decode0 initState
        (some ⟨500, some (Json.obj [("error", Json.str "bad password")])⟩)
        []).events.count (GatewayEvent.online false) = 0 :=
  ⟨by decide, by decide⟩

/-- C9 (amended): `update_loop` first broadcasts online-status true; if
session creation fails the poll-loop body is never executed and no
offline broadcast occurs; when session creation succeeds (and no fetch
response hits the `noexcept` terminate path), online-status false is
broadcast exactly once, as the final event of the run. -/
theorem C9_update_loop_lifecycle (decode : Json → Task) (st : DeviceState)
    (sres : Option HttpResponse) (fetches : List (Option HttpResponse)) :
    (update_loop decode st sres fetches).events.head? =
        some (GatewayEvent.online true) ∧
      ((create_session sres).1 = false →
        (update_loop decode st sres fetches).events = [GatewayEvent.online true] ∧
        (update_loop decode st sres fetches).cmds = [] ∧
        (update_loop decode st sres fetches).state = st) ∧
      ((create_session sres).1 = true →
        (∀ f ∈ fetches, respCrashes f = false) →
        ∃ mid, (update_loop decode st sres fetches).events =
            GatewayEvent.online true :: (mid ++ [GatewayEvent.online false]) ∧
          ∀ e ∈ mid, e = GatewayEvent.stateBroadcast) := by
  refine ⟨?_, ?_, ?_⟩
  · simp only [update_loop]
    split_ifs <;> rfl
  · intro hfail
    simp only [update_loop]
    by_cases h1 : (create_session sres).2.2 = true
    · rw [if_pos h1]
      exact ⟨rfl, rfl, rfl⟩
    · rw [if_neg h1, if_pos hfail]
      exact ⟨rfl, rfl, rfl⟩
  · intro hok hnc
    have hncr := create_session_ok_not_crashed sres hok
    have hl := loopRun_no_crash decode fetches hnc st
    simp only [update_loop]
    rw [if_neg (by simp [hncr]), if_neg (by simp [hok])]
    rw [if_neg (by simp [hl.1])]
    exact ⟨(loopRun decode st fetches).2.2.1, rfl, hl.2⟩

/-- Witness for C9 (amended): a successful session creation followed by a
single failing fetch yields `[online true, online false]`; a failed
session creation yields `[online true]` alone. -/
theorem C9_update_loop_lifecycle_witness :
    (update_loop decode0 initState
        (some ⟨200, some (Json.obj [("password", Json.str "s3cret")])⟩)
        [some ⟨403, some (Json.obj [("error", Json.str "bad password")])⟩]).events.head? =
      some (GatewayEvent.online true) ∧
    (update_loop decode0 initState
        (some ⟨500, none⟩) []).events = [GatewayEvent.online true] ∧
    ∃ mid,
      (update_loop decode0 initState
          (some ⟨200, some (Json.obj [("password", Json.str "s3cret")])⟩)
          [some ⟨403, some (Json.obj [("error", Json.str "bad password")])⟩]).events =
        GatewayEvent.online true :: (mid ++ [GatewayEvent.online false]) ∧
      ∀ e ∈ mid, e = GatewayEvent.stateBroadcast :=
  ⟨(C9_update_loop_lifecycle decode0 initState
      (some ⟨200, some (Json.obj [("password", Json.str "s3cret")])⟩)
      [some ⟨403, some (Json.obj [("error", Json.str "bad password")])⟩]).1,
    ((C9_update_loop_lifecycle decode0 initState
      (some ⟨500, none⟩) []).2.1 (by decide)).1,
    (C9_update_loop_lifecycle decode0 initState
      (some ⟨200, some (Json.obj [("password", Json.str "s3cret")])⟩)
      [some ⟨403, some (Json.obj [("error", Json.str "bad password")])⟩]).2.2
      (by decide) (by decide)⟩

/-- C10: for every requested rate at most 38400, `find_closest_baud_rate`
returns the smallest supported rate that is ≥ the request; for every rate
strictly above 38400 it falls back to the built-in 9600 default rather
than the nearest supported rate 38400. -/
theorem C10_find_closest_baud_rate (rate : Nat) :
    to_baud_rate_count (find_closest_baud_rate rate) =
      if rate ≤ 38400 then least_supported_ge rate else 9600 := by
  by_cases h1 : rate ≤ 50
  · rw [if_pos (by omega)]
    unfold find_closest_baud_rate
    rw [if_pos h1]
    unfold least_supported_ge supported_rates
    rw [List.find?_cons_of_pos _ (by simp [h1])]
    rfl
  by_cases h2 : rate ≤ 75
  · rw [if_pos (by omega)]
    unfold find_closest_baud_rate
    rw [if_neg h1, if_pos h2]
    unfold least_supported_ge supported_rates
    rw [List.find?_cons_of_neg _ (by simp [h1]), List.find?_cons_of_pos _ (by simp [h2])]
    rfl
  by_cases h3 : rate ≤ 110
  · rw [if_pos (by omega)]
    unfold find_closest_baud_rate
    rw [if_neg h1, if_neg h2, if_pos h3]
    unfold least_supported_ge supported_rates
    rw [List.find?_cons_of_neg _ (by simp [h1]), List.find?_cons_of_neg _ (by simp [h2]), List.find?_cons_of_pos _ (by simp [h3])]
    rfl
  by_cases h4 : rate ≤ 134
  · rw [if_pos (by omega)]
    unfold find_closest_baud_rate
    rw [if_neg h1, if_neg h2, if_neg h3, if_pos h4]
    unfold least_supported_ge supported_rates
    rw [List.find?_cons_of_neg _ (by simp [h1]), List.find?_cons_of_neg _ (by simp [h2]), List.find?_cons_of_neg _ (by simp [h3]), List.find?_cons_of_pos _ (by simp [h4])]
    rfl
  by_cases h5 : rate ≤ 150
  · rw [if_pos (by omega)]
    unfold find_closest_baud_rate
    rw [if_neg h1, if_neg h2, if_neg h3, if_neg h4, if_pos h5]
    unfold least_supported_ge supported_rates
    rw [List.find?_cons_of_neg _ (by simp [h1]), List.find?_cons_of_neg _ (by simp [h2]), List.find?_cons_of_neg _ (by simp [h3]), List.find?_cons_of_neg _ (by simp [h4]), List.find?_cons_of_pos _ (by simp [h5])]
    rfl
  by_cases h6 : rate ≤ 200
  · rw [if_pos (by omega)]
    unfold find_closest_baud_rate
    rw [if_neg h1, if_neg h2, if_neg h3, if_neg h4, if_neg h5, if_pos h6]
    unfold least_supported_ge supported_rates
    rw [List.find?_cons_of_neg _ (by simp [h1]), List.find?_cons_of_neg _ (by simp [h2]), List.find?_cons_of_neg _ (by simp [h3]), List.find?_cons_of_neg _ (by simp [h4]), List.find?_cons_of_neg _ (by simp [h5]), List.find?_cons_of_pos _ (by simp [h6])]
    rfl
  by_cases h7 : rate ≤ 300
  · rw [if_pos (by omega)]
    unfold find_closest_baud_rate
    rw [if_neg h1, if_neg h2, if_neg h3, if_neg h4, if_neg h5, if_neg h6, if_pos h7]
    unfold least_supported_ge supported_rates
    rw [List.find?_cons_of_neg _ (by simp [h1]), List.find?_cons_of_neg _ (by simp [h2]), List.find?_cons_of_neg _ (by simp [h3]), List.find?_cons_of_neg _ (by simp [h4]), List.find?_cons_of_neg _ (by simp [h5]), List.find?_cons_of_neg _ (by simp [h6]), List.find?_cons_of_pos _ (by simp [h7])]
    rfl
  by_cases h8 : rate ≤ 600
  · rw [if_pos (by omega)]
    unfold find_closest_baud_rate
    rw [if_neg h1, if_neg h2, if_neg h3, if_neg h4, if_neg h5, if_neg h6, if_neg h7, if_pos h8]
    unfold least_supported_ge supported_rates
    rw [List.find?_cons_of_neg _ (by simp [h1]), List.find?_cons_of_neg _ (by simp [h2]), List.find?_cons_of_neg _ (by simp [h3]), List.find?_cons_of_neg _ (by simp [h4]), List.find?_cons_of_neg _ (by simp [h5]), List.find?_cons_of_neg _ (by simp [h6]), List.find?_cons_of_neg _ (by simp [h7]), List.find?_cons_of_pos _ (by simp [h8])]
    rfl
  by_cases h9 : rate ≤ 1200
  · rw [if_pos (by omega)]
    unfold find_closest_baud_rate
    rw [if_neg h1, if_neg h2, if_neg h3, if_neg h4, if_neg h5, if_neg h6, if_neg h7, if_neg h8, if_pos h9]
    unfold least_supported_ge supported_rates
    rw [List.find?_cons_of_neg _ (by simp [h1]), List.find?_cons_of_neg _ (by simp [h2]), List.find?_cons_of_neg _ (by simp [h3]), List.find?_cons_of_neg _ (by simp [h4]), List.find?_cons_of_neg _ (by simp [h5]), List.find?_cons_of_neg _ (by simp [h6]), List.find?_cons_of_neg _ (by simp [h7]), List.find?_cons_of_neg _ (by simp [h8]), List.find?_cons_of_pos _ (by simp [h9])]
    rfl
  by_cases h10 : rate ≤ 1800
  · rw [if_pos (by omega)]
    unfold find_closest_baud_rate
    rw [if_neg h1, if_neg h2, if_neg h3, if_neg h4, if_neg h5, if_neg h6, if_neg h7, if_neg h8, if_neg h9, if_pos h10]
    unfold least_supported_ge supported_rates
    rw [List.find?_cons_of_neg _ (by simp [h1]), List.find?_cons_of_neg _ (by simp [h2]), List.find?_cons_of_neg _ (by simp [h3]), List.find?_cons_of_neg _ (by simp [h4]), List.find?_cons_of_neg _ (by simp [h5]), List.find?_cons_of_neg _ (by simp [h6]), List.find?_cons_of_neg _ (by simp [h7]), List.find?_cons_of_neg _ (by simp [h8]), List.find?_cons_of_neg _ (by simp [h9]), List.find?_cons_of_pos _ (by simp [h10])]
    rfl
  by_cases h11 : rate ≤ 2400
  · rw [if_pos (by omega)]
    unfold find_closest_baud_rate
    rw [if_neg h1, if_neg h2, if_neg h3, if_neg h4, if_neg h5, if_neg h6, if_neg h7, if_neg h8, if_neg h9, if_neg h10, if_pos h11]
    unfold least_supported_ge supported_rates
    rw [List.find?_cons_of_neg _ (by simp [h1]), List.find?_cons_of_neg _ (by simp [h2]), List.find?_cons_of_neg _ (by simp [h3]), List.find?_cons_of_neg _ (by simp [h4]), List.find?_cons_of_neg _ (by simp [h5]), List.find?_cons_of_neg _ (by simp [h6]), List.find?_cons_of_neg _ (by simp [h7]), List.find?_cons_of_neg _ (by simp [h8]), List.find?_cons_of_neg _ (by simp [h9]), List.find?_cons_of_neg _ (by simp [h10]), List.find?_cons_of_pos _ (by simp [h11])]
    rfl
  by_cases h12 : rate ≤ 4800
  · rw [if_pos (by omega)]
    unfold find_closest_baud_rate
    rw [if_neg h1, if_neg h2, if_neg h3, if_neg h4, if_neg h5, if_neg h6, if_neg h7, if_neg h8, if_neg h9, if_neg h10, if_neg h11, if_pos h12]
    unfold least_supported_ge supported_rates
    rw [List.find?_cons_of_neg _ (by simp [h1]), List.find?_cons_of_neg _ (by simp [h2]), List.find?_cons_of_neg _ (by simp [h3]), List.find?_cons_of_neg _ (by simp [h4]), List.find?_cons_of_neg _ (by simp [h5]), List.find?_cons_of_neg _ (by simp [h6]), List.find?_cons_of_neg _ (by simp [h7]), List.find?_cons_of_neg _ (by simp [h8]), List.find?_cons_of_neg _ (by simp [h9]), List.find?_cons_of_neg _ (by simp [h10]), List.find?_cons_of_neg _ (by simp [h11]), List.find?_cons_of_pos _ (by simp [h12])]
    rfl
  by_cases h13 : rate ≤ 9600
  · rw [if_pos (by omega)]
    unfold find_closest_baud_rate
    rw [if_neg h1, if_neg h2, if_neg h3, if_neg h4, if_neg h5, if_neg h6, if_neg h7, if_neg h8, if_neg h9, if_neg h10, if_neg h11, if_neg h12, if_pos h13]
    unfold least_supported_ge supported_rates
    rw [List.find?_cons_of_neg _ (by simp [h1]), List.find?_cons_of_neg _ (by simp [h2]), List.find?_cons_of_neg _ (by simp [h3]), List.find?_cons_of_neg _ (by simp [h4]), List.find?_cons_of_neg _ (by simp [h5]), List.find?_cons_of_neg _ (by simp [h6]), List.find?_cons_of_neg _ (by simp [h7]), List.find?_cons_of_neg _ (by simp [h8]), List.find?_cons_of_neg _ (by simp [h9]), List.find?_cons_of_neg _ (by simp [h10]), List.find?_cons_of_neg _ (by simp [h11]), List.find?_cons_of_neg _ (by simp [h12]), List.find?_cons_of_pos _ (by simp [h13])]
    rfl
  by_cases h14 : rate ≤ 19200
  · rw [if_pos (by omega)]
    unfold find_closest_baud_rate
    rw [if_neg h1, if_neg h2, if_neg h3, if_neg h4, if_neg h5, if_neg h6, if_neg h7, if_neg h8, if_neg h9, if_neg h10, if_neg h11, if_neg h12, if_neg h13, if_pos h14]
    unfold least_supported_ge supported_rates
    rw [List.find?_cons_of_neg _ (by simp [h1]), List.find?_cons_of_neg _ (by simp [h2]), List.find?_cons_of_neg _ (by simp [h3]), List.find?_cons_of_neg _ (by simp [h4]), List.find?_cons_of_neg _ (by simp [h5]), List.find?_cons_of_neg _ (by simp [h6]), List.find?_cons_of_neg _ (by simp [h7]), List.find?_cons_of_neg _ (by simp [h8]), List.find?_cons_of_neg _ (by simp [h9]), List.find?_cons_of_neg _ (by simp [h10]), List.find?_cons_of_neg _ (by simp [h11]), List.find?_cons_of_neg _ (by simp [h12]), List.find?_cons_of_neg _ (by simp [h13]), List.find?_cons_of_pos _ (by simp [h14])]
    rfl
  by_cases h15 : rate ≤ 38400
  · rw [if_pos (by omega)]
    unfold find_closest_baud_rate
    rw [if_neg h1, if_neg h2, if_neg h3, if_neg h4, if_neg h5, if_neg h6, if_neg h7, if_neg h8, if_neg h9, if_neg h10, if_neg h11, if_neg h12, if_neg h13, if_neg h14, if_pos h15]
    unfold least_supported_ge supported_rates
    rw [List.find?_cons_of_neg _ (by simp [h1]), List.find?_cons_of_neg _ (by simp [h2]), List.find?_cons_of_neg _ (by simp [h3]), List.find?_cons_of_neg _ (by simp [h4]), List.find?_cons_of_neg _ (by simp [h5]), List.find?_cons_of_neg _ (by simp [h6]), List.find?_cons_of_neg _ (by simp [h7]), List.find?_cons_of_neg _ (by simp [h8]), List.find?_cons_of_neg _ (by simp [h9]), List.find?_cons_of_neg _ (by simp [h10]), List.find?_cons_of_neg _ (by simp [h11]), List.find?_cons_of_neg _ (by simp [h12]), List.find?_cons_of_neg _ (by simp [h13]), List.find?_cons_of_neg _ (by simp [h14]), List.find?_cons_of_pos _ (by simp [h15])]
    rfl
  · rw [if_neg h15]
    unfold find_closest_baud_rate
    rw [if_neg h1, if_neg h2, if_neg h3, if_neg h4, if_neg h5, if_neg h6, if_neg h7, if_neg h8, if_neg h9, if_neg h10, if_neg h11, if_neg h12, if_neg h13, if_neg h14, if_neg h15]
    rfl

end FoxControl
